import Mathlib

/-!
Verification development for the dbt-redshift Data API layer:
`dbt/adapters/redshift/data_api/client.py` (RedshiftDataClient) and
`dbt/adapters/redshift/data_api/connection.py` (Cursor, DataApiConnection).

The Python code is shallowly embedded: each method becomes an executable
Lean function over explicit state, the remote service (boto client) becomes
an oracle argument, and every side effect that matters to the claims
(sleeps, cancellation calls, backend calls) is recorded in an explicit
event trace returned alongside the result.
-/

deriving instance DecidableEq for Except

/-- Python `str.upper()` restricted to the ASCII range, applied per
character (kernel-reducible, unlike core `String.toUpper`). -/
def pyUpper (s : String) : String := ⟨s.data.map Char.toUpper⟩

/-- A response of the remote `describe_statement` operation, restricted to
the fields the client reads: `resp["Status"]`, `resp["Error"]`, and the
(optional) `resp.get("ResultsRows", 0)` hint. -/
structure DescribeResp where
  status : String
  error : String
  resultsRows : Option Int

/-- The argument passed as `Id=` to `cancel_statement`.  The source passes
the Python builtin `str` (a placeholder), which is a value distinct from
every actual identifier string; we model that distinction explicitly. -/
inductive CancelArg
  | idString (s : String)
  | strBuiltin
deriving DecidableEq

/-- The remote service as seen by `_wait`: a describe response for each
poll index, and a flag saying whether `cancel_statement` succeeds (the
source swallows any exception from it, so the flag is never inspected). -/
structure Backend where
  describe : Nat → DescribeResp
  cancelOk : Bool

/-- Result of `RedshiftDataClient._wait`: normal return with the row hint,
`RedshiftQueryException(id_, status, error)`, the invalid-status
`RuntimeError`, or the timeout `RuntimeError`. -/
inductive WaitOutcome
  | success (rows : Int)
  | queryException (id status error : String)
  | invalidStatus (id status : String)
  | timedOut (id : String) (timeout : Int)
deriving DecidableEq

/-- Observable effects of `_wait`: `time.sleep(check_internal_seconds)`
and the `cancel_statement` call (with the argument actually passed). -/
inductive WaitEvent
  | sleep (secs : Int)
  | cancelCall (arg : CancelArg)
deriving DecidableEq

/-- `status in ("SUBMITTED", "PICKED", "STARTED")` (client.py line 114). -/
def inProgress (s : String) : Bool :=
  s = "SUBMITTED" || s = "PICKED" || s = "STARTED"

/-- `status in ("ABORTED", "FAILED")` (client.py line 118). -/
def terminalFail (s : String) : Bool :=
  s = "ABORTED" || s = "FAILED"

/-- The `for _ in range(check_count)` loop of `_wait` (client.py lines
107-128).  `n` is the number of remaining iterations, `k` the poll index
fed to the describe oracle.  When the loop exhausts, the source runs
`self.client.cancel_statement(Id=str)` inside `try ... except Exception:
pass` — note the argument is the builtin `str`, not `id_` — and then
raises the timeout error. -/
def waitLoop (b : Backend) (id : String) (T c : Int) : Nat → Nat → WaitOutcome × List WaitEvent
  | 0, _ =>
      (WaitOutcome.timedOut id T, [WaitEvent.cancelCall CancelArg.strBuiltin])
  | n + 1, k =>
      let resp := b.describe k
      let status := pyUpper resp.status
      if status = "FINISHED" then
        (WaitOutcome.success (resp.resultsRows.getD 0), [])
      else if inProgress status then
        let r := waitLoop b id T c n (k + 1)
        (r.1, WaitEvent.sleep c :: r.2)
      else if terminalFail status then
        (WaitOutcome.queryException id status resp.error, [])
      else
        (WaitOutcome.invalidStatus id status, [])

/-- `math.ceil(timeout_seconds / check_internal_seconds)` for integer
arguments and positive divisor, via the floor-division identity. -/
def pyCeil (T c : Int) : Int := -(Int.fdiv (-T) c)

/-- `RedshiftDataClient._wait(id_, timeout_seconds, check_internal_seconds)`
(client.py lines 101-128): compute `check_count`, bump it to 5 when it is
not positive, then run the polling loop. -/
def RedshiftDataClient.wait (b : Backend) (id : String) (T c : Int) :
    WaitOutcome × List WaitEvent :=
  let cc := pyCeil T c
  let cc2 := if cc ≤ 0 then 5 else cc
  waitLoop b id T c cc2.toNat 0

/-- The sequence of sleep durations performed by one `_wait` run. -/
def waitSleeps (b : Backend) (id : String) (T c : Int) : List Int :=
  (RedshiftDataClient.wait b id T c).2.filterMap fun e =>
    match e with
    | WaitEvent.sleep s => some s
    | WaitEvent.cancelCall _ => none

/-- A backend whose statement is forever in status STARTED. -/
def startedResp : DescribeResp := ⟨"STARTED", "", none⟩

/-- Backend stuck in STARTED; cancellation succeeds. -/
def bStarted : Backend := ⟨fun _ => startedResp, true⟩

/-- Submission-time errors from `batch_execute_statement`: the
admission-control `ClientError` with code `ActiveStatementsExceededException`
or any other `ClientError` code (client.py lines 55-64). -/
inductive SubmitError
  | activeStatementsExceeded
  | other (code : String)
deriving DecidableEq

/-- Exceptions `execute_sqls` can raise: the length `assert`, the
admission-control timeout `RuntimeError`, a propagated `ClientError`, and
the three exceptions of `_wait`. -/
inductive ExecErr
  | assertionError
  | timeoutError
  | clientError (code : String)
  | queryException (id status error : String)
  | invalidStatus (id status : String)
  | waitTimeout (id : String) (timeout : Int)
deriving DecidableEq

/-- The `while True` submission loop of `execute_sqls` (client.py lines
48-64).  `submit k` is the backend's answer to the `k`-th
`batch_execute_statement` attempt.  Returns the result (identifier plus
the remaining timeout budget after retries, or the exception), the number
of submission attempts made, and the list of backoff sleeps performed. -/
def submitLoop (submit : Nat → Except SubmitError String) (k : Nat) (T : Int) :
    Except ExecErr (String × Int) × Nat × List Int :=
  match submit k with
  | Except.ok id => (Except.ok (id, T), 1, [])
  | Except.error (SubmitError.other code) => (Except.error (ExecErr.clientError code), 1, [])
  | Except.error SubmitError.activeStatementsExceeded =>
    if h : T < 0 then (Except.error ExecErr.timeoutError, 1, [])
    else
      let r := submitLoop submit (k + 1) (T - 10)
      (r.1, r.2.1 + 1, 10 :: r.2.2)
termination_by (T + 10).toNat
decreasing_by omega

/-- One run of `execute_sqls`: result, number of submission attempts,
backoff sleeps, and the `_wait` events (when `wait` was requested). -/
structure ExecRun where
  result : Except ExecErr String
  attempts : Nat
  sleeps : List Int
  waitEvents : List WaitEvent
deriving DecidableEq

/-- `RedshiftDataClient.execute_sqls(sqls, wait, timeout_seconds)`
(client.py lines 46-67): `assert len(sqls) <= 40` (no lower bound is
checked), then the submission retry loop, then — when `wait` is true —
`self._wait(id_, timeout_seconds, 1)` on the budget left after retries;
the identifier is returned, `_wait` exceptions propagate. -/
def execute_sqls (submit : Nat → Except SubmitError String) (b : Backend)
    (sqls : List String) (waitFlag : Bool) (T : Int) : ExecRun :=
  if sqls.length ≤ 40 then
    match submitLoop submit 0 T with
    | (Except.ok (id, T1), a, s) =>
      if waitFlag then
        let w := RedshiftDataClient.wait b id T1 1
        match w.1 with
        | WaitOutcome.success _ => ⟨Except.ok id, a, s, w.2⟩
        | WaitOutcome.queryException i st e => ⟨Except.error (ExecErr.queryException i st e), a, s, w.2⟩
        | WaitOutcome.invalidStatus i st => ⟨Except.error (ExecErr.invalidStatus i st), a, s, w.2⟩
        | WaitOutcome.timedOut i t => ⟨Except.error (ExecErr.waitTimeout i t), a, s, w.2⟩
      else ⟨Except.ok id, a, s, []⟩
    | (Except.error e, a, s) => ⟨Except.error e, a, s, []⟩
  else ⟨Except.error ExecErr.assertionError, 0, [], []⟩

/-- A backend that rejects every submission with the admission-control
error. -/
def aseAlways : Nat → Except SubmitError String :=
  fun _ => Except.error SubmitError.activeStatementsExceeded

/-- A cooperative backend that accepts the first submission. -/
def submitOk : Nat → Except SubmitError String := fun _ => Except.ok "id0"

/-- A Python scalar as it appears in Data API cell wrappers. -/
inductive PyVal
  | noneV
  | intV (n : Int)
  | doubleV (q : Rat)
  | strV (s : String)
  | boolV (b : Bool)
deriving DecidableEq

/-- One cell wrapper of a result row: the Data API dict, modelled as its
key/value pairs in insertion order. -/
def CellWrapper : Type := List (String × PyVal)

/-- Decoding of one cell (client.py line 98):
`None if "isNull" in column else next(iter(column.values()))`; on an empty
wrapper `next` raises `StopIteration`. -/
def decodeCell (w : CellWrapper) : Except String PyVal :=
  if w.any (fun kv => kv.1 = "isNull") then Except.ok PyVal.noneV
  else
    match w with
    | [] => Except.error "StopIteration"
    | kv :: _ => Except.ok kv.2

/-- A column descriptor as returned in `ColumnMetadata`, restricted to the
fields the cursor reads. -/
structure ColumnMeta where
  name : String
  typeName : String
  length : Int
  precision : Int
  scale : Int
  nullable : Int
deriving DecidableEq

/-- One page of `get_statement_result`. -/
structure ResultPage where
  columnMetadata : List ColumnMeta
  records : List (List CellWrapper)

/-- All rows of the lazy iterator of `result_set` (client.py lines 95-98):
pages concatenated in order, each row's cells decoded by `decodeCell`. -/
def result_set_rows (pages : List ResultPage) : List (List (Except String PyVal)) :=
  (List.flatten (pages.map ResultPage.records)).map (fun row => row.map decodeCell)

/-- `RedshiftDataClient.result_set` for an already-resolved identifier
(client.py lines 91-99): `next(pages)` fetches the first page eagerly
(raising `StopIteration` when there is none), whose `ColumnMetadata` is
returned together with the row iterator over all pages. -/
def result_set (pages : List ResultPage) :
    Except String (List ColumnMeta × List (List (Except String PyVal))) :=
  match pages with
  | [] => Except.error "StopIteration"
  | fp :: rest => Except.ok (fp.columnMetadata, result_set_rows (fp :: rest))

/-- Type codes taken from `redshift_connector.utils.oids.RedshiftOID`
(external library; standard PostgreSQL OID values). -/
def RedshiftOID_BIGINT : Nat := 20

/-- `RedshiftOID.DECIMAL`. -/
def RedshiftOID_DECIMAL : Nat := 1700

/-- `RedshiftOID.VARCHAR`. -/
def RedshiftOID_VARCHAR : Nat := 1043

/-- `RedshiftOID.BOOLEAN`. -/
def RedshiftOID_BOOLEAN : Nat := 16

/-- The `type_code_map` lookup of `Cursor._get_description`
(connection.py lines 66-72), with `dict.get` defaulting to
`type_code_map["STRING"]` (line 81). -/
def type_code_map (t : String) : Nat :=
  if t = "LONG" then RedshiftOID_BIGINT
  else if t = "DOUBLE" then RedshiftOID_DECIMAL
  else if t = "STRING" then RedshiftOID_VARCHAR
  else if t = "BOOLEAN" then RedshiftOID_BOOLEAN
  else if t = "BLOB" then RedshiftOID_VARCHAR
  else RedshiftOID_VARCHAR

/-- The `Column` named tuple of connection.py (lines 18-25). -/
structure Column where
  name : String
  type_code : Nat
  display_size : Int
  internal_size : Int
  precision : Int
  scale : Int
  null_ok : Bool
deriving DecidableEq

/-- The `Column(...)` construction of `Cursor._get_description`
(connection.py lines 79-87): type name uppercased through the lookup,
`length` used for both sizes, `nullable == 1` for the flag. -/
def mkColumn (c : ColumnMeta) : Column :=
  ⟨c.name, type_code_map (pyUpper c.typeName), c.length, c.length,
   c.precision, c.scale, c.nullable == 1⟩

/-- The `RedshiftDataClient` instance as the cursor sees it, abstracted to
the three operations the cursor invokes: `execute_sql` (which identifier a
submission of the given SQL gets), `result_set` (metadata and decoded rows
for an identifier), `row_count`. -/
structure ClientModel where
  submitId : String → String
  resultOf : Option String → List ColumnMeta × List (List PyVal)
  rowCountOf : Option String → Int

/-- Calls the cursor issues on its `RedshiftDataClient` (and, through it,
on the backend service). -/
inductive ClientCall
  | batchExecute (sqls : List String) (waited : Bool)
  | describeStatement (id : Option String)
  | getResultSet (id : Option String)
deriving DecidableEq

/-- The mutable fields of `Cursor` set in `__init__` (connection.py lines
29-34); `_result_set` holds the rows not yet consumed by the active
iterator, or `none` before first materialization. -/
structure CursorState where
  query_id : Option String
  result_set : Option (List (List PyVal))
  column_metadata : Option (List ColumnMeta)
deriving DecidableEq

/-- A freshly-constructed cursor: all fields `None`. -/
def Cursor.init : CursorState := ⟨none, none, none⟩

/-- `Cursor.execute` (connection.py lines 36-38): store the identifier of
`execute_sql(operation, True)` — a batch of exactly one statement with
`wait=True` — and return self.  No other field is touched. -/
def Cursor.execute (cl : ClientModel) (st : CursorState) (sql : String) :
    CursorState × List ClientCall :=
  ({ st with query_id := some (cl.submitId sql) },
   [ClientCall.batchExecute [sql] true])

/-- `Cursor._get_result_set` (connection.py lines 60-63): fetch metadata
and row iterator for the current identifier and store both. -/
def Cursor.getResultSet (cl : ClientModel) (st : CursorState) :
    CursorState × List ClientCall :=
  let mr := cl.resultOf st.query_id
  ({ st with column_metadata := some mr.1, result_set := some mr.2 },
   [ClientCall.getResultSet st.query_id])

/-- `Cursor.fetchone` (connection.py lines 45-49): materialize the result
set if absent, then `next(self._result_set)` (raising `StopIteration` when
exhausted). -/
def Cursor.fetchone (cl : ClientModel) (st : CursorState) :
    Except String (List PyVal) × CursorState × List ClientCall :=
  match st.result_set with
  | none =>
    let r := Cursor.getResultSet cl st
    match r.1.result_set with
    | some (row :: rest) =>
      (Except.ok row, { r.1 with result_set := some rest }, r.2)
    | _ => (Except.error "StopIteration", r.1, r.2)
  | some (row :: rest) =>
    (Except.ok row, { st with result_set := some rest }, [])
  | some [] => (Except.error "StopIteration", st, [])

/-- `Cursor.fetchall` (connection.py lines 51-54): materialize the result
set if absent, then drain the iterator into a list. -/
def Cursor.fetchall (cl : ClientModel) (st : CursorState) :
    List (List PyVal) × CursorState × List ClientCall :=
  match st.result_set with
  | none =>
    let r := Cursor.getResultSet cl st
    ((r.1.result_set).getD [], { r.1 with result_set := some [] }, r.2)
  | some rows => (rows, { st with result_set := some [] }, [])

/-- `Cursor.rowcount` (connection.py lines 56-58): no guard — it always
delegates to `row_count(self._query_id)`, which issues
`describe_statement(Id=...)` on the client, even when `_query_id` is
`None`. -/
def Cursor.rowcount (cl : ClientModel) (st : CursorState) :
    Int × List ClientCall :=
  (cl.rowCountOf st.query_id, [ClientCall.describeStatement st.query_id])

/-- Errors raised locally by the cursor. -/
inductive CursorErr
  | mustExecuteFirst
deriving DecidableEq

/-- `Cursor.description` (connection.py lines 91-96) composed with
`Cursor._get_description` (lines 65-89): raise `RuntimeError` when
`_query_id` is falsy (`None` or the empty string); otherwise fetch the
result set if column metadata is not yet known, and map each column
through `mkColumn`. -/
def Cursor.description (cl : ClientModel) (st : CursorState) :
    Except CursorErr (List Column) × CursorState × List ClientCall :=
  match st.query_id with
  | none => (Except.error CursorErr.mustExecuteFirst, st, [])
  | some id =>
    if id = "" then (Except.error CursorErr.mustExecuteFirst, st, [])
    else
      match st.column_metadata with
      | some meta => (Except.ok (meta.map mkColumn), st, [])
      | none =>
        let r := Cursor.getResultSet cl st
        (Except.ok (((cl.resultOf (some id)).1).map mkColumn), r.1, r.2)

/-- Errors CPython raises while binding call arguments to parameters
(all surfaced as `TypeError`). -/
inductive BindError
  | tooManyPositional
  | unexpectedKeyword (k : String)
  | multipleValues (k : String)
  | missingArgument (k : String)
deriving DecidableEq

/-- One formal parameter of a Python function: its name and whether it
has a default value. -/
structure Param where
  name : String
  hasDefault : Bool
deriving DecidableEq

/-- CPython keyword binding: each keyword argument in order must name a
parameter, and must not name a parameter already filled positionally. -/
def bindKeywords (posNames paramNames : List String) : List String → Except BindError Unit
  | [] => Except.ok ()
  | k :: rest =>
    if paramNames.contains k then
      if posNames.contains k then Except.error (BindError.multipleValues k)
      else bindKeywords posNames paramNames rest
    else Except.error (BindError.unexpectedKeyword k)

/-- CPython call binding for a call with `npos` positional arguments and
the keyword names `kws`, against the parameter list `params`: positional
arguments fill parameters left to right, keywords are bound, and every
parameter left unfilled must have a default. -/
def bindCall (params : List Param) (npos : Nat) (kws : List String) :
    Except BindError Unit :=
  if params.length < npos then Except.error BindError.tooManyPositional
  else
    let posNames := (params.take npos).map Param.name
    match bindKeywords posNames (params.map Param.name) kws with
    | Except.error e => Except.error e
    | Except.ok _ =>
      match (params.drop npos).find? (fun p => !p.hasDefault && !kws.contains p.name) with
      | some p => Except.error (BindError.missingArgument p.name)
      | none => Except.ok ()

/-- The parameters of `RedshiftDataClient.__init__` after `self`
(client.py lines 24-32): only `database` lacks a default. -/
def redshiftDataClientParams : List Param :=
  [⟨"database", false⟩, ⟨"workgroup", true⟩, ⟨"secret_arn", true⟩,
   ⟨"user", true⟩, ⟨"cluster_identifier", true⟩, ⟨"client", true⟩]

/-- The call `RedshiftDataClient(database, client, workgroup=...,
user=..., cluster_identifier=..., secret_arn=...)` made by
`DataApiConnection.__init__` (connection.py lines 135-142): two
positional arguments and four keywords, bound against
`redshiftDataClientParams`. -/
def dataApiConnectionClientBind : Except BindError Unit :=
  bindCall redshiftDataClientParams 2
    ["workgroup", "user", "cluster_identifier", "secret_arn"]

/-- A constructed `DataApiConnection` (only reachable when the inner
client call binds). -/
structure DataApiConnState where
  database : String
deriving DecidableEq

/-- The arguments of `DataApiConnection.__init__` (connection.py lines
108-117). -/
structure DataApiConnArgs where
  database : String
  cluster_identifier : Option String
  db_user : Option String
  workgroup : Option String
  secret_arn : Option String
  iam_role : Option String
deriving DecidableEq

/-- `DataApiConnection.__init__` (connection.py lines 108-142): the body
ends in the `RedshiftDataClient(...)` call, so construction succeeds only
if that call binds; a binding failure is a `TypeError` raised before any
statement can be submitted. -/
def DataApiConnection.init (a : DataApiConnArgs) : Except BindError DataApiConnState :=
  match dataApiConnectionClientBind with
  | Except.error e => Except.error e
  | Except.ok _ => Except.ok ⟨a.database⟩

/-- `DataApiConnection.cursor` (connection.py lines 144-145) requires a
constructed connection, so obtaining a cursor means `__init__` succeeded. -/
def DataApiConnection.cursor (a : DataApiConnArgs) : Except BindError CursorState :=
  (DataApiConnection.init a).map (fun _ => Cursor.init)

/-- Backend that reports FINISHED at once (with a row hint of 3). -/
def bFin : Backend := ⟨fun _ => ⟨"FINISHED", "", some 3⟩, true⟩

/-- Backend that reports FAILED with error text "boom". -/
def bFail : Backend := ⟨fun _ => ⟨"FAILED", "boom", none⟩, true⟩

/-- Backend that reports an unrecognized status string. -/
def bWeird : Backend := ⟨fun _ => ⟨"NONSENSE", "", none⟩, true⟩

/-- Column descriptor fixture for the first test execution. -/
def metaA : ColumnMeta := ⟨"a", "long", 8, 19, 0, 1⟩

/-- Column descriptor fixture for the second test execution. -/
def metaB : ColumnMeta := ⟨"b", "varchar", 256, 0, 0, 0⟩

/-- Client fixture with two distinct executions: SQL "A" gets identifier
"1" with two rows, SQL "B" gets identifier "2" with one different row. -/
def clTwo : ClientModel :=
  ⟨fun sql => if sql = "A" then "1" else "2",
   fun id =>
     if id = some "1" then ([metaA], [[PyVal.intV 1], [PyVal.intV 11]])
     else ([metaB], [[PyVal.intV 2]]),
   fun _ => 0⟩

/-- The cursor after `execute("A")` followed by one `fetchone()` on
`clTwo`: the first execution's iterator is materialized and one of its
two rows is consumed. -/
def staleSeed : CursorState :=
  (Cursor.fetchone clTwo (Cursor.execute clTwo Cursor.init "A").1).2.1

/-- The cursor after `execute("A")`, `fetchone()`, `execute("B")`. -/
def staleCursor : CursorState := (Cursor.execute clTwo staleSeed "B").1

/-- C1: on exhausting its poll budget while the status is still
non-terminal, `_wait` reaches the cancellation attempt and then raises the
timeout error, and the outcome is the same whether or not the cancellation
succeeds (the `except Exception: pass` swallows the result) — but the code
does NOT cancel the execution identifier: `cancel_statement(Id=str)`
passes the builtin `str` placeholder, so no cancellation of `id_="abc"`
ever happens.  Evaluation at the failing input. -/
theorem c1_timeout_cancels_placeholder :
    ∀ cOk : Bool,
      RedshiftDataClient.wait ⟨fun _ => startedResp, cOk⟩ "abc" 2 2 =
        (WaitOutcome.timedOut "abc" 2,
         [WaitEvent.sleep 2, WaitEvent.cancelCall CancelArg.strBuiltin]) ∧
      WaitEvent.cancelCall (CancelArg.idString "abc") ∉
        (RedshiftDataClient.wait ⟨fun _ => startedResp, cOk⟩ "abc" 2 2).2 := by
  intro cOk
  have h : RedshiftDataClient.wait ⟨fun _ => startedResp, cOk⟩ "abc" 2 2 =
      (WaitOutcome.timedOut "abc" 2,
       [WaitEvent.sleep 2, WaitEvent.cancelCall CancelArg.strBuiltin]) := rfl
  refine ⟨h, ?_⟩
  rw [h]
  decide

/-- C3: for every combination of constructor arguments,
`DataApiConnection.__init__` raises `TypeError` (multiple values for
argument `workgroup`, since the boto client is passed positionally into
the `workgroup` slot while `workgroup=` is also given), so no cursor can
ever be obtained through `DataApiConnection.cursor()`. -/
theorem c3_connection_init_always_type_error (a : DataApiConnArgs) :
    DataApiConnection.init a = Except.error (BindError.multipleValues "workgroup") ∧
    DataApiConnection.cursor a = Except.error (BindError.multipleValues "workgroup") :=
  ⟨rfl, rfl⟩

/-- C4 counterexample: after `execute("A")`, `fetchone()`, `execute("B")`,
a `fetchall()` returns the leftover row of the FIRST execution, not the
rows of the second execution — prior result state is not discarded. -/
theorem c4_stale_rows_counterexample :
    staleCursor.query_id = some "2" ∧
    (Cursor.fetchall clTwo staleCursor).1 = [[PyVal.intV 11]] ∧
    (clTwo.resultOf (some "2")).2 = [[PyVal.intV 2]] ∧
    [[PyVal.intV 11]] ≠ [[PyVal.intV 2]] := by decide

/-- C4 (amended): `Cursor.execute` submits exactly one statement with
`wait=True`, stores the new execution identifier and returns the cursor,
but does NOT discard prior result state: the materialized result sequence
and the column metadata are left untouched, so a fetch issued after a
second execute continues the earlier execution's sequence. -/
theorem c4_execute_submits_one_keeps_state
    (cl : ClientModel) (st : CursorState) (sql : String) :
    (Cursor.execute cl st sql).2 = [ClientCall.batchExecute [sql] true] ∧
    (Cursor.execute cl st sql).1.query_id = some (cl.submitId sql) ∧
    (Cursor.execute cl st sql).1.result_set = st.result_set ∧
    (Cursor.execute cl st sql).1.column_metadata = st.column_metadata ∧
    (∀ rows, st.result_set = some rows →
      (Cursor.fetchall cl (Cursor.execute cl st sql).1).1 = rows) := by
  refine ⟨rfl, rfl, rfl, rfl, ?_⟩
  intro rows hr
  simp [Cursor.execute, Cursor.fetchall, hr]

/-- C4 witness: the amended theorem applied to the concrete stale cursor. -/
theorem c4_execute_submits_one_keeps_state_witness :
    (Cursor.fetchall clTwo (Cursor.execute clTwo staleSeed "B").1).1 =
      [[PyVal.intV 11]] :=
  (c4_execute_submits_one_keeps_state clTwo staleSeed "B").2.2.2.2
    [[PyVal.intV 11]] (by decide)

/-- C5 counterexample: on a freshly constructed cursor, accessing
`rowcount` issues `describe_statement` on the client with the null
identifier — it does not fail fast without contacting the backend. -/
theorem c5_rowcount_contacts_backend_counterexample :
    (Cursor.rowcount clTwo Cursor.init).2 = [ClientCall.describeStatement none] ∧
    [ClientCall.describeStatement none] ≠ ([] : List ClientCall) := by decide

/-- C5 (amended): on a freshly constructed cursor, `description` fails
fast with the caller error and no backend contact, while `rowcount` has no
guard: it delegates to `row_count(None)`, issuing a `describe_statement`
call with the null identifier. -/
theorem c5_description_guarded_rowcount_not (cl : ClientModel) :
    Cursor.description cl Cursor.init =
      (Except.error CursorErr.mustExecuteFirst, Cursor.init, []) ∧
    Cursor.rowcount cl Cursor.init =
      (cl.rowCountOf none, [ClientCall.describeStatement none]) :=
  ⟨rfl, rfl⟩

/-- Every event of a `_wait` run is either a sleep of exactly the
configured check interval or the single placeholder cancellation call. -/
theorem waitLoop_events (b : Backend) (id : String) (T c : Int) :
    ∀ (n k : Nat), ∀ e ∈ (waitLoop b id T c n k).2,
      e = WaitEvent.sleep c ∨ e = WaitEvent.cancelCall CancelArg.strBuiltin := by
  intro n
  induction n with
  | zero =>
    intro k e he
    simp only [waitLoop, List.mem_singleton] at he
    exact Or.inr he
  | succ m ih =>
    intro k e he
    simp only [waitLoop] at he
    split at he
    · simp at he
    · split at he
      · rcases List.mem_cons.mp he with h | h
        · exact Or.inl h
        · exact ih (k + 1) e h
      · split at he <;> simp at he

/-- C2 counterexample: with a backend stuck in STARTED, timeout 4 and
check interval 2, the sleep sequence is `[2, 2]` — the second sleep is not
the double of the first, refuting the doubling/backoff claim. -/
theorem c2_fixed_interval_counterexample :
    waitSleeps bStarted "q" 4 2 = [2, 2] ∧
    ¬ ((waitSleeps bStarted "q" 4 2).getD 1 0 =
        2 * (waitSleeps bStarted "q" 4 2).getD 0 0) := by decide

/-- C2 (amended): the sleep intervals between unsuccessful polls of
`_wait` form a constant sequence — every sleep equals the configured check
interval, so the sequence is non-decreasing and never exceeds that
interval, but it starts at the interval (not below it) and never doubles. -/
theorem c2_sleep_sequence_constant (b : Backend) (id : String) (T c : Int) :
    waitSleeps b id T c = List.replicate (waitSleeps b id T c).length c := by
  rw [List.eq_replicate_length]
  intro x hx
  unfold waitSleeps at hx
  rcases List.mem_filterMap.mp hx with ⟨e, he, hfe⟩
  rcases waitLoop_events b id T c _ 0 e he with h | h <;> subst h
  · simpa using hfe.symm
  · simp at hfe

/-- Unfolding of one polling iteration of `_wait`. -/
theorem waitLoop_succ (b : Backend) (id : String) (T c : Int) (n k : Nat) :
    waitLoop b id T c (n + 1) k =
      (let resp := b.describe k
       let status := pyUpper resp.status
       if status = "FINISHED" then
         (WaitOutcome.success (resp.resultsRows.getD 0), [])
       else if inProgress status then
         let r := waitLoop b id T c n (k + 1)
         (r.1, WaitEvent.sleep c :: r.2)
       else if terminalFail status then
         (WaitOutcome.queryException id status resp.error, [])
       else
         (WaitOutcome.invalidStatus id status, [])) := rfl

/-- `_wait` always performs at least one poll: the loop bound is 5 when
`check_count` is not positive, else `check_count` itself. -/
theorem wait_runs_first_poll (b : Backend) (id : String) (T c : Int) :
    ∃ m, RedshiftDataClient.wait b id T c = waitLoop b id T c (m + 1) 0 := by
  obtain ⟨m, hm⟩ : ∃ m, (if pyCeil T c ≤ 0 then (5 : Int) else pyCeil T c).toNat = m + 1 := by
    by_cases h : pyCeil T c ≤ 0
    · exact ⟨4, by simp [h]⟩
    · refine ⟨(pyCeil T c).toNat - 1, ?_⟩
      rw [if_neg h]
      omega
  refine ⟨m, ?_⟩
  rw [← hm]
  rfl

/-- C7: classification of the first polled status by `_wait` — a status
uppercasing to FINISHED returns success immediately (with the best-effort
row hint); ABORTED or FAILED raises `RedshiftQueryException` carrying the
identifier, the status and the service-reported error text verbatim, with
no retry and no sleep; any status outside the six recognized words raises
the invalid-status `RuntimeError` immediately. -/
theorem c7_status_classification (b : Backend) (id : String) (T c : Int) :
    (pyUpper (b.describe 0).status = "FINISHED" →
      RedshiftDataClient.wait b id T c =
        (WaitOutcome.success (((b.describe 0).resultsRows).getD 0), [])) ∧
    ((pyUpper (b.describe 0).status = "ABORTED" ∨
      pyUpper (b.describe 0).status = "FAILED") →
      RedshiftDataClient.wait b id T c =
        (WaitOutcome.queryException id (pyUpper (b.describe 0).status)
          (b.describe 0).error, [])) ∧
    (pyUpper (b.describe 0).status ∉
        ["FINISHED", "SUBMITTED", "PICKED", "STARTED", "ABORTED", "FAILED"] →
      RedshiftDataClient.wait b id T c =
        (WaitOutcome.invalidStatus id (pyUpper (b.describe 0).status), [])) := by
  obtain ⟨m, hm⟩ := wait_runs_first_poll b id T c
  rw [hm, waitLoop_succ]
  refine ⟨?_, ?_, ?_⟩
  · intro h
    simp [h]
  · rintro (h | h) <;>
      simp [h, inProgress, terminalFail]
  · intro h
    simp only [List.mem_cons, List.mem_singleton, not_or] at h
    obtain ⟨h1, h2, h3, h4, h5, h6⟩ := h
    simp [h1, h2, h3, h4, h5, h6, inProgress, terminalFail]

/-- C7 witness: the classification applied to three concrete backends. -/
theorem c7_status_classification_witness :
    RedshiftDataClient.wait bFin "i" 2 1 = (WaitOutcome.success 3, []) ∧
    RedshiftDataClient.wait bFail "i" 2 1 =
      (WaitOutcome.queryException "i" "FAILED" "boom", []) ∧
    RedshiftDataClient.wait bWeird "i" 2 1 =
      (WaitOutcome.invalidStatus "i" "NONSENSE", []) := by
  refine ⟨?_, ?_, ?_⟩
  · exact (c7_status_classification bFin "i" 2 1).1 (by decide)
  · exact (c7_status_classification bFail "i" 2 1).2.1 (Or.inr (by decide))
  · exact (c7_status_classification bWeird "i" 2 1).2.2 (by decide)

/-- Unfolding of one iteration of the submission retry loop. -/
theorem submitLoop_unfold (submit : Nat → Except SubmitError String) (k : Nat) (T : Int) :
    submitLoop submit k T =
      match submit k with
      | Except.ok id => (Except.ok (id, T), 1, [])
      | Except.error (SubmitError.other code) =>
        (Except.error (ExecErr.clientError code), 1, [])
      | Except.error SubmitError.activeStatementsExceeded =>
        if T < 0 then (Except.error ExecErr.timeoutError, 1, [])
        else
          let r := submitLoop submit (k + 1) (T - 10)
          (r.1, r.2.1 + 1, 10 :: r.2.2) := by
  rw [submitLoop]
  rfl

/-- Under an always-rejecting backend, a budget in `[0, 10)` yields one
backoff retry and then the timeout error. -/
theorem submitLoop_ase_small (submit : Nat → Except SubmitError String)
    (hs : ∀ k, submit k = Except.error SubmitError.activeStatementsExceeded)
    (T : Int) (h0 : 0 ≤ T) (h10 : T < 10) (k : Nat) :
    submitLoop submit k T = (Except.error ExecErr.timeoutError, 2, [10]) := by
  rw [submitLoop_unfold]
  simp only [hs]
  rw [if_neg (by omega)]
  have hin : submitLoop submit (k + 1) (T - 10) =
      (Except.error ExecErr.timeoutError, 1, []) := by
    rw [submitLoop_unfold]
    simp only [hs]
    rw [if_pos (by omega)]
  simp only [hin]

/-- Under an always-rejecting backend and a non-negative budget `T`, the
submission loop makes `T.toNat / 10 + 2` attempts in total (one initial
plus `floor(T/10) + 1` retries), sleeps the fixed 10-unit backoff before
every retry, and ends in the timeout error. -/
theorem submitLoop_ase (submit : Nat → Except SubmitError String)
    (hs : ∀ k, submit k = Except.error SubmitError.activeStatementsExceeded) :
    ∀ (n : Nat) (T : Int), T.toNat ≤ n → 0 ≤ T → ∀ k,
      submitLoop submit k T =
        (Except.error ExecErr.timeoutError, T.toNat / 10 + 2,
         List.replicate (T.toNat / 10 + 1) 10) := by
  intro n
  induction n with
  | zero =>
    intro T hTn hT0 k
    have h10 : T < 10 := by omega
    have hq : T.toNat / 10 = 0 := by omega
    rw [submitLoop_ase_small submit hs T hT0 h10 k, hq]
    simp [List.replicate]
  | succ m ih =>
    intro T hTn hT0 k
    by_cases h10 : T < 10
    · have hq : T.toNat / 10 = 0 := by omega
      rw [submitLoop_ase_small submit hs T hT0 h10 k, hq]
      simp [List.replicate]
    · rw [submitLoop_unfold]
      simp only [hs]
      rw [if_neg (by omega)]
      have ih' := ih (T - 10) (by omega) (by omega) (k + 1)
      simp only [ih']
      have h1 : (T - 10).toNat / 10 + 2 + 1 = T.toNat / 10 + 2 := by omega
      have h2 : T.toNat / 10 + 1 = (T - 10).toNat / 10 + 1 + 1 := by omega
      rw [h2, ← h1]
      simp [List.replicate_succ]

/-- C6: with a non-negative timeout budget `T` and a backend rejecting
every submission with the admission-control error, `execute_sqls` makes
`floor(T/10) + 1` retries after the initial attempt, sleeping the fixed
10-unit backoff before each retry (so the budget drops by exactly 10 per
retry), and then raises the timeout error once the remaining budget has
gone negative. -/
theorem c6_admission_control_retries (submit : Nat → Except SubmitError String)
    (b : Backend) (sqls : List String) (waitFlag : Bool) (T : Int)
    (hT : 0 ≤ T)
    (hs : ∀ k, submit k = Except.error SubmitError.activeStatementsExceeded)
    (hlen : sqls.length ≤ 40) :
    execute_sqls submit b sqls waitFlag T =
      ⟨Except.error ExecErr.timeoutError, T.toNat / 10 + 2,
       List.replicate (T.toNat / 10 + 1) 10, []⟩ ∧
    (T.toNat / 10 + 2) - 1 = T.toNat / 10 + 1 := by
  have hloop := submitLoop_ase submit hs T.toNat T (le_refl _) hT 0
  constructor
  · unfold execute_sqls
    rw [if_pos hlen, hloop]
  · omega

/-- C6 witness: budget 25 gives 3 retries after the initial attempt. -/
theorem c6_admission_control_retries_witness :
    execute_sqls aseAlways bStarted ["q"] true 25 =
      ⟨Except.error ExecErr.timeoutError, (25 : Int).toNat / 10 + 2,
       List.replicate ((25 : Int).toNat / 10 + 1) 10, []⟩ ∧
    ((25 : Int).toNat / 10 + 2) - 1 = (25 : Int).toNat / 10 + 1 :=
  c6_admission_control_retries aseAlways bStarted ["q"] true 25
    (by decide) (fun _ => rfl) (by decide)

/-- C8 (amended): the length precondition enforced before any backend
call is only the upper bound `len(sqls) <= 40`: 41 or more statements
fail immediately with the assertion error, independently of the backend
and with zero submission attempts, while any list of at most 40
statements — including the empty list, since no lower bound is checked —
passes the length check and is submitted. -/
theorem c8_length_check_upper_bound_only
    (sqls : List String) (b : Backend) (T : Int) :
    (∀ submit, 41 ≤ sqls.length →
      execute_sqls submit b sqls false T =
        ⟨Except.error ExecErr.assertionError, 0, [], []⟩) ∧
    (sqls.length ≤ 40 →
      execute_sqls submitOk b sqls false T = ⟨Except.ok "id0", 1, [], []⟩) := by
  constructor
  · intro submit h41
    unfold execute_sqls
    rw [if_neg (by omega)]
  · intro h40
    unfold execute_sqls
    rw [if_pos h40, submitLoop_unfold]
    simp [submitOk]

/-- C8 counterexample: the empty statement list does not fail fast — the
length check passes and the submission is sent to the backend (one
attempt, no assertion error). -/
theorem c8_empty_list_not_failfast_counterexample :
    execute_sqls submitOk bStarted [] false 120 = ⟨Except.ok "id0", 1, [], []⟩ ∧
    (execute_sqls submitOk bStarted [] false 120).attempts ≠ 0 ∧
    (execute_sqls submitOk bStarted [] false 120).result ≠
      Except.error ExecErr.assertionError := by
  have h : execute_sqls submitOk bStarted [] false 120 =
      ⟨Except.ok "id0", 1, [], []⟩ := by
    unfold execute_sqls
    rw [if_pos (by decide), submitLoop_unfold]
    simp [submitOk]
  refine ⟨h, ?_, ?_⟩ <;> rw [h] <;> decide

/-- C8 witness: a 41-statement batch is rejected without any submission
attempt; a 1-statement batch is submitted. -/
theorem c8_length_check_upper_bound_only_witness :
    execute_sqls aseAlways bStarted (List.replicate 41 "q") false 120 =
      ⟨Except.error ExecErr.assertionError, 0, [], []⟩ ∧
    execute_sqls submitOk bStarted ["q"] false 120 =
      ⟨Except.ok "id0", 1, [], []⟩ :=
  ⟨(c8_length_check_upper_bound_only (List.replicate 41 "q") bStarted 120).1
      aseAlways (by decide),
   (c8_length_check_upper_bound_only ["q"] bStarted 120).2 (by decide)⟩

/-- C9: every row produced by the lazy sequence of `result_set` is the
cell-wise `decodeCell` image of a raw page row, and `decodeCell` maps a
wrapper carrying the null marker to `null` and a wrapper carrying exactly
one typed field (of any scalar kind) to exactly that field's value. -/
theorem c9_cell_decoding (pages : List ResultPage)
    (meta : List ColumnMeta) (rows : List (List (Except String PyVal)))
    (h : result_set pages = Except.ok (meta, rows)) :
    (∀ row ∈ rows, ∃ raw ∈ (pages.map ResultPage.records).flatten,
        row = raw.map decodeCell) ∧
    (∀ v : PyVal, decodeCell [("isNull", v)] = Except.ok PyVal.noneV) ∧
    (∀ (k : String) (w : PyVal), k ≠ "isNull" →
        decodeCell [(k, w)] = Except.ok w) := by
  refine ⟨?_, ?_, ?_⟩
  · intro row hrow
    have hrows : rows = result_set_rows pages := by
      cases pages with
      | nil => simp [result_set] at h
      | cons fp rest =>
        simp only [result_set, Except.ok.injEq, Prod.mk.injEq] at h
        exact h.2.symm
    rw [hrows] at hrow
    unfold result_set_rows at hrow
    rcases List.mem_map.mp hrow with ⟨raw, hraw, hrow_eq⟩
    exact ⟨raw, hraw, hrow_eq.symm⟩
  · intro v
    simp [decodeCell]
  · intro k w hk
    simp [decodeCell, hk]

/-- One page with one null cell and one integer cell, for the witness. -/
def pages1 : List ResultPage :=
  [⟨[metaA], [[[("isNull", PyVal.boolV true)]], [[("longValue", PyVal.intV 7)]]]⟩]

/-- C9 witness: decoding on a concrete page. -/
theorem c9_cell_decoding_witness :
    decodeCell [("isNull", PyVal.boolV true)] = Except.ok PyVal.noneV ∧
    decodeCell [("longValue", PyVal.intV 7)] = Except.ok (PyVal.intV 7) := by
  have h := c9_cell_decoding pages1 [metaA] (result_set_rows pages1) (by rfl)
  exact ⟨h.2.1 (PyVal.boolV true), h.2.2 "longValue" (PyVal.intV 7) (by decide)⟩

/-- C10: on an executed cursor (non-empty identifier), `description`
returns exactly one `Column` 7-tuple per column descriptor, built by
`mkColumn`: `(name, type_code, display_size, internal_size, precision,
scale, nullable)`, where the type code is the fixed lookup applied to the
uppercased logical type name — LONG, DOUBLE, STRING, BOOLEAN, BLOB map to
the BIGINT, DECIMAL, VARCHAR, BOOLEAN, VARCHAR codes and every other type
name defaults to the STRING (VARCHAR) code. -/
theorem c10_description_tuples (cl : ClientModel) (st : CursorState) (id : String)
    (hq : st.query_id = some id) (hid : id ≠ "") (cols : List ColumnMeta)
    (hcols : st.column_metadata = some cols ∨
             (st.column_metadata = none ∧ (cl.resultOf (some id)).1 = cols)) :
    (Cursor.description cl st).1 = Except.ok (cols.map mkColumn) ∧
    (cols.map mkColumn).length = cols.length ∧
    (∀ c : ColumnMeta, mkColumn c =
      ⟨c.name, type_code_map (pyUpper c.typeName), c.length, c.length,
       c.precision, c.scale, c.nullable == 1⟩) ∧
    type_code_map "LONG" = RedshiftOID_BIGINT ∧
    type_code_map "DOUBLE" = RedshiftOID_DECIMAL ∧
    type_code_map "STRING" = RedshiftOID_VARCHAR ∧
    type_code_map "BOOLEAN" = RedshiftOID_BOOLEAN ∧
    type_code_map "BLOB" = RedshiftOID_VARCHAR ∧
    (∀ t : String, t ≠ "LONG" → t ≠ "DOUBLE" → t ≠ "STRING" → t ≠ "BOOLEAN" →
      t ≠ "BLOB" → type_code_map t = RedshiftOID_VARCHAR) := by
  refine ⟨?_, by simp, fun c => rfl, by decide, by decide, by decide, by decide,
    by decide, ?_⟩
  · unfold Cursor.description
    rcases hcols with hm | ⟨hm, hres⟩
    · simp only [hq, hm]
      rw [if_neg hid]
    · simp only [hq, hm]
      rw [if_neg hid]
      simp only [hres]
  · intro t h1 h2 h3 h4 h5
    simp [type_code_map, h1, h2, h3, h4, h5]

/-- C10 witness: the description of a cursor whose execution produced one
column of logical type name "long", plus the default branch of the
lookup. -/
theorem c10_description_tuples_witness :
    (Cursor.description clTwo ⟨some "1", none, some [metaA]⟩).1 =
      Except.ok [mkColumn metaA] ∧
    type_code_map "FOO" = RedshiftOID_VARCHAR := by
  have h := c10_description_tuples clTwo ⟨some "1", none, some [metaA]⟩ "1" rfl
      (by decide) [metaA] (Or.inl rfl)
  exact ⟨by simpa using h.1,
    h.2.2.2.2.2.2.2.2 "FOO" (by decide) (by decide) (by decide) (by decide)
      (by decide)⟩
